import Mathlib

/-!
Verification of the HTTP response-envelope and error-normalization layer
(`src/lib/ky-client.ts`): the response parser `parseApiResponse`, the
failure extractor `extractFailureFromHttpError`, the error normalizer
`toApiErrorAsync`, the `ApiError` constructor, the body-selection helper
`withBody`, and the HTTP verb helpers `http.get` / `http.delete` /
`http.post` / `http.put` / `http.patch`.

The embedding models the JavaScript runtime values the layer manipulates
as the inductive type `Js` (JSON data plus the `Error` instances and
wire-body objects the code discriminates on), and models `JSON.parse`
as a fuel-based recursive-descent function `jsonParse` over an
integer-number JSON fragment (the claims depend only on the
success/failure dichotomy of parsing and on the parsed structure, never
on float or unicode-escape minutiae).
-/

/-- The part of a fetch `Response` object the client layer reads:
`status`, `statusText`, `url`, `headers.get("content-type")` (`none`
models a `null` header), and the body text produced by
`response.text()` / `response.clone().text()` (the defensive
`try/catch` around `clone().text()` is modelled as the read always
succeeding). -/
structure Response where
  status : Nat
  statusText : String
  url : String
  contentType : Option String
  bodyText : String
deriving DecidableEq

/-- Model of `response.ok` of the fetch API: status in the 2xx range. -/
def Response.ok (r : Response) : Bool :=
  decide (200 ≤ r.status) && decide (r.status < 300)

mutual

/-- JavaScript runtime values flowing through the client layer:
`undefined`, JSON data, the wire-body classes `withBody` tests with
`instanceof` (each carrying an abstract tag so distinct instances stay
distinct), plain `Error` instances (`errObj name message`), ky
`HTTPError` instances (`httpErr response message`), and `ApiError`
instances (`apiErr message code statusCode correlationId details
fields`, mirroring the fields the `ApiError` class stores). -/
inductive Js where
  | undefined
  | null
  | bool (b : Bool)
  | num (n : Int)
  | str (s : String)
  | arr (elems : JsList)
  | obj (fields : JsFields)
  | formData (tag : Nat)
  | blob (tag : Nat)
  | arrayBuffer (tag : Nat)
  | typedArray (tag : Nat)
  | urlSearchParams (tag : Nat)
  | errObj (name message : String)
  | httpErr (response : Response) (message : String)
  | apiErr (message code statusCode correlationId details fields : Js)
deriving DecidableEq

/-- A JavaScript array's element list. -/
inductive JsList where
  | nil
  | cons (head : Js) (tail : JsList)
deriving DecidableEq

/-- A JavaScript object's own properties, in insertion order. -/
inductive JsFields where
  | nil
  | cons (key : String) (value : Js) (tail : JsFields)
deriving DecidableEq

end

/-- Build an object property list from a Lean list (literal helper). -/
def JsFields.ofList : List (String × Js) → JsFields
  | [] => .nil
  | (k, v) :: t => .cons k v (JsFields.ofList t)

/-- Build an array element list from a Lean list (literal helper). -/
def JsList.ofList : List Js → JsList
  | [] => .nil
  | v :: t => .cons v (JsList.ofList t)

/-- First property with the given key. -/
def JsFields.lookup : JsFields → String → Option Js
  | .nil, _ => none
  | .cons k v t, key => if k = key then some v else t.lookup key

/-- Whether a property with the given key exists. -/
def JsFields.hasKey (fs : JsFields) (key : String) : Bool :=
  (fs.lookup key).isSome

/-- Model of `delete x[key]`: drop the property with the given key, keeping the
order of the remaining properties. -/
def JsFields.eraseKey : JsFields → String → JsFields
  | .nil, _ => .nil
  | .cons k v t, key => if k = key then t.eraseKey key else .cons k v (t.eraseKey key)

/-- Append properties (models spreading an object and then adding new
keys, as in `{ ...next, body }`). -/
def JsFields.append : JsFields → JsFields → JsFields
  | .nil, ys => ys
  | .cons k v t, ys => .cons k v (t.append ys)

/-- Spread-and-set: `{ ...fs, key: value }` for a `key` not in `fs`. -/
def JsFields.push (fs : JsFields) (key : String) (value : Js) : JsFields :=
  fs.append (.cons key value .nil)

/-- Property read `x.k` on an object; missing keys and non-object bases
yield `undefined`. (JavaScript throws a `TypeError` on a `null` /
`undefined` base; every access in the source is either guarded or on a
literal object, except `ensureOk` / `new ApiError` applied to a
primitive parsed body, where the thrown `TypeError` and the modelled
`undefined` lead to the same observable outcome: an `ApiError` is
thrown.) -/
def Js.get : Js → String → Js
  | .obj fields, k =>
    (match fields.lookup k with
     | some v => v
     | none => .undefined)
  | _, _ => .undefined

/-- Optional-chaining read `x?.k`: `undefined` on a nullish base. -/
def Js.optGet : Js → String → Js
  | .undefined, _ => .undefined
  | .null, _ => .undefined
  | x, k => x.get k

/-- The `in` operator restricted to own keys: `"k" in x`. -/
def Js.hasKey : Js → String → Bool
  | .obj fields, k => fields.hasKey k
  | _, _ => false

/-- Nullish test (`null` or `undefined`), the guard of `??`. -/
def Js.nullish : Js → Bool
  | .undefined => true
  | .null => true
  | _ => false

/-- Nullish coalescing `a ?? b`. -/
def coalesce (a b : Js) : Js := if a.nullish then b else a

/-- JavaScript truthiness (objects are truthy; `0`, `""`, `false`,
`null`, `undefined` are falsy). -/
def Js.truthy : Js → Bool
  | .undefined => false
  | .null => false
  | .bool b => b
  | .num n => !(n == 0)
  | .str s => !(s == "")
  | _ => true

/-- Short-circuit `a || b` on values. -/
def jsOr (a b : Js) : Js := if a.truthy then a else b

/-- Model of `typeof x === "object"` (true for `null`, plain objects, arrays and
every `Error` / wire-body instance in the model). -/
def Js.isObjectType : Js → Bool
  | .undefined => false
  | .bool _ => false
  | .num _ => false
  | .str _ => false
  | _ => true

mutual

/-- Whether `x` occurs inside `t` (as `t` itself or nested anywhere in
its arrays, objects or `ApiError` fields): the strongest sense in which
a value could be "reachable from" another. -/
def Js.contains (t x : Js) : Bool :=
  decide (t = x) ||
  (match t with
   | .arr xs => JsList.containsAny xs x
   | .obj fs => JsFields.containsAny fs x
   | .apiErr m c s ci d f =>
     m.contains x || c.contains x || s.contains x || ci.contains x ||
       d.contains x || f.contains x
   | _ => false)

/-- Whether `x` occurs inside some element of the list. -/
def JsList.containsAny : JsList → Js → Bool
  | .nil, _ => false
  | .cons h t, x => h.contains x || t.containsAny x

/-- Whether `x` occurs inside some property value. -/
def JsFields.containsAny : JsFields → Js → Bool
  | .nil, _ => false
  | .cons _ v t, x => v.contains x || t.containsAny x

end

/-- Model of `String.prototype.slice(0, n)`: the first `n` characters. -/
def strTake (s : String) (n : Nat) : String := ⟨s.data.take n⟩

/-- Model of `String.prototype.trim`: strip leading and trailing whitespace. -/
def strTrim (s : String) : String :=
  ⟨((s.data.dropWhile Char.isWhitespace).reverse.dropWhile Char.isWhitespace).reverse⟩

/-- Helper for `String.prototype.includes`: does `pat` occur in the
character list? -/
def includesAux (pat : List Char) : List Char → Bool
  | [] => pat.isEmpty
  | c :: cs => pat.isPrefixOf (c :: cs) || includesAux pat cs

/-- Model of `String.prototype.includes`: substring containment. -/
def strIncludes (s pat : String) : Bool := includesAux pat.data s.data

/-- Consume leading JSON whitespace. -/
def skipWs : List Char → List Char
  | [] => []
  | c :: cs => if c = ' ' || c = '\n' || c = '\t' || c = '\r' then skipWs cs else c :: cs

/-- Split a leading run of decimal digits. -/
def takeDigits : List Char → List Char × List Char
  | [] => ([], [])
  | c :: cs =>
    if c.isDigit then
      let p := takeDigits cs
      (c :: p.1, p.2)
    else ([], c :: cs)

/-- Decimal digits to a natural number. -/
def digitsToNat (ds : List Char) : Nat :=
  ds.foldl (fun acc c => acc * 10 + (c.toNat - 48)) 0

/-- Parse the digits of a JSON number; fractional and exponent forms
are outside the modelled fragment. -/
def parseNumTail (cs : List Char) : Option (Nat × List Char) :=
  let p := takeDigits cs
  if p.1.isEmpty then none
  else match p.2 with
    | '.' :: _ => none
    | 'e' :: _ => none
    | 'E' :: _ => none
    | r => some (digitsToNat p.1, r)

/-- Parse the remainder of a JSON string literal after the opening
quote; `\uXXXX` escapes are outside the modelled fragment. -/
def parseStrTail : List Char → Option (String × List Char)
  | [] => none
  | '"' :: r => some ("", r)
  | '\\' :: e :: r =>
    let esc : Option Char :=
      match e with
      | '"' => some '"'
      | '\\' => some '\\'
      | '/' => some '/'
      | 'n' => some '\n'
      | 't' => some '\t'
      | 'r' => some '\r'
      | 'b' => some (Char.ofNat 8)
      | 'f' => some (Char.ofNat 12)
      | _ => none
    match esc with
    | some c => (parseStrTail r).map (fun p => (⟨c :: p.1.data⟩, p.2))
    | none => none
  | c :: r => (parseStrTail r).map (fun p => (⟨c :: p.1.data⟩, p.2))

mutual

/-- Parse one JSON value (fuel-indexed recursive descent). -/
def parseVal : Nat → List Char → Option (Js × List Char)
  | 0, _ => none
  | fuel + 1, cs =>
    match skipWs cs with
    | 'n' :: 'u' :: 'l' :: 'l' :: r => some (.null, r)
    | 't' :: 'r' :: 'u' :: 'e' :: r => some (.bool true, r)
    | 'f' :: 'a' :: 'l' :: 's' :: 'e' :: r => some (.bool false, r)
    | '"' :: r => (parseStrTail r).map (fun p => (.str p.1, p.2))
    | '[' :: r =>
      (match skipWs r with
       | ']' :: r2 => some (.arr .nil, r2)
       | r2 => (parseArrItems fuel r2).map (fun p => (.arr p.1, p.2)))
    | '\x7b' :: r =>
      (match skipWs r with
       | '\x7d' :: r2 => some (.obj .nil, r2)
       | r2 => (parseObjItems fuel r2).map (fun p => (.obj p.1, p.2)))
    | '-' :: r => (parseNumTail r).map (fun p => (.num (-(p.1 : Int)), p.2))
    | c :: r =>
      if c.isDigit then (parseNumTail (c :: r)).map (fun p => (.num (p.1 : Int), p.2))
      else none
    | [] => none

/-- Parse comma-separated array items up to the closing bracket. -/
def parseArrItems : Nat → List Char → Option (JsList × List Char)
  | 0, _ => none
  | fuel + 1, cs => do
    let (v, r) ← parseVal fuel cs
    match skipWs r with
    | ',' :: r2 =>
      let (vs, r3) ← parseArrItems fuel r2
      pure (.cons v vs, r3)
    | ']' :: r2 => pure (.cons v .nil, r2)
    | _ => none

/-- Parse comma-separated `"key": value` members up to the closing
brace. -/
def parseObjItems : Nat → List Char → Option (JsFields × List Char)
  | 0, _ => none
  | fuel + 1, cs =>
    match skipWs cs with
    | '"' :: r => do
      let (k, r1) ← parseStrTail r
      match skipWs r1 with
      | ':' :: r2 => do
        let (v, r3) ← parseVal fuel r2
        match skipWs r3 with
        | ',' :: r4 =>
          let (kvs, r5) ← parseObjItems fuel r4
          pure (.cons k v kvs, r5)
        | '\x7d' :: r4 => pure (.cons k v .nil, r4)
        | _ => none
      | _ => none
    | _ => none

end

/-- Model of the `JSON.parse` builtin over the fragment above: `some`
is a successful parse of the full text, `none` a thrown `SyntaxError`
(in particular `jsonParse "" = none`, as `JSON.parse("")` throws). -/
def jsonParse (text : String) : Option Js :=
  match parseVal (text.length + 1) text.data with
  | some (v, rest) => if skipWs rest = [] then some v else none
  | none => none

example : jsonParse "" = none := by decide
example : jsonParse "\x7b\"success\":true\x7d" =
    some (.obj (.cons "success" (.bool true) .nil)) := by decide
example : jsonParse " \x7b\"a\": [1, -2, \"x\"], \"b\": null\x7d " =
    some (.obj (JsFields.ofList
      [("a", .arr (JsList.ofList [.num 1, .num (-2), .str "x"])), ("b", .null)])) := by decide
example : jsonParse "<html>Internal Error</html>" = none := by decide
example : strIncludes "application/json; charset=utf-8" "application/json" = true := by decide

/-- Model of `parseApiResponse` (`ky-client.ts`): read the body text; empty body
with `response.ok` yields a synthesized `Success` with `data:
undefined`; empty body otherwise yields an `EMPTY_ERROR_BODY`
`Failure`; a non-empty body is `JSON.parse`d and returned as-is on
success, else an `INVALID_JSON` `Failure` carrying the first 200
characters of the raw text. -/
def parseApiResponse (response : Response) : Js :=
  let text := response.bodyText
  if text = "" then
    if response.ok then
      .obj (JsFields.ofList
        [("success", .bool true), ("data", .undefined),
         ("statusCode", .num (response.status : Int))])
    else
      .obj (JsFields.ofList
        [("success", .bool false), ("statusCode", .num (response.status : Int)),
         ("error", .obj (JsFields.ofList
           [("code", .str "EMPTY_ERROR_BODY"),
            ("message", .str "Empty response body"),
            ("details", .obj (JsFields.ofList
              [("url", .str response.url),
               ("statusText", .str response.statusText)]))]))])
  else
    match jsonParse text with
    | some parsed => parsed
    | none =>
      .obj (JsFields.ofList
        [("success", .bool false), ("statusCode", .num (response.status : Int)),
         ("error", .obj (JsFields.ofList
           [("code", .str "INVALID_JSON"),
            ("message", .str "Response is not valid JSON"),
            ("details", .obj (JsFields.ofList
              [("url", .str response.url),
               ("raw", .str (strTake text 200))]))]))])

/-- Model of `isOk` (`ky-client.ts`): `response.success === true`. -/
def isOk (response : Js) : Bool :=
  match response.get "success" with
  | .bool true => true
  | _ => false

/-- Model of `new ApiError(failure)` (`ky-client.ts`): the constructor copies
`failure.error?.message ?? failure.message ?? "API Error"` into the
`Error` message and stores `code`, `statusCode`, `correlationId`,
`details` and `fields`; no `cause` option is passed to `super`. -/
def newApiError (failure : Js) : Js :=
  let err := failure.get "error"
  .apiErr
    (coalesce (err.optGet "message")
      (coalesce (failure.get "message") (.str "API Error")))
    (err.optGet "code")
    (failure.get "statusCode")
    (failure.get "correlationId")
    (err.optGet "details")
    (err.optGet "fields")

/-- Model of `ensureOk` (`ky-client.ts`): return the success envelope whole, or
throw `new ApiError(response)`. -/
def ensureOk (response : Js) : Except Js Js :=
  if isOk response then .ok response else .error (newApiError response)

/-- Is the value an `ApiError` instance? -/
def isApiErrorInstance : Js → Bool
  | .apiErr .. => true
  | _ => false

/-- Is the value an `Error` instance (`x instanceof Error`)? -/
def isErrorInstance : Js → Bool
  | .errObj .. => true
  | .httpErr .. => true
  | .apiErr .. => true
  | _ => false

/-- Model of `.message` read on an `Error` instance (or generic object). -/
def jsMessage : Js → Js
  | .errObj _ m => .str m
  | .httpErr _ m => .str m
  | .apiErr m _ _ _ _ _ => m
  | .obj fs => (Js.obj fs).get "message"
  | _ => .undefined

/-- Model of `.name` read (`Error` subclasses carry their class name). -/
def jsName : Js → Js
  | .errObj n _ => .str n
  | .httpErr _ _ => .str "HTTPError"
  | .apiErr .. => .str "Error"
  | .obj fs => (Js.obj fs).get "name"
  | _ => .undefined

/-- Model of `"response" in x`. -/
def hasResponseProp : Js → Bool
  | .httpErr _ _ => true
  | .obj fs => fs.hasKey "response"
  | _ => false

/-- Model of `isHTTPError` (`ky-client.ts`): truthy object with a `response`
property and `name === "HTTPError"`. -/
def isHTTPError (error : Js) : Bool :=
  error.truthy && error.isObjectType && hasResponseProp error &&
    (match jsName error with
     | .str s => s == "HTTPError"
     | _ => false)

/-- Model of `looksLikeApiResponse` (`ky-client.ts`): truthy object containing a
`success` key. -/
def looksLikeApiResponse (x : Js) : Bool :=
  x.truthy && x.isObjectType && x.hasKey "success"

/-- Model of `extractFailureFromHttpError` (`ky-client.ts`), taking the
`HTTPError`'s response (the only part the function reads). When the
content type includes `application/json` and the body parses: a body
with `success === false` is used verbatim; an envelope-shaped body
claiming success yields `HTTP_ERROR_WITH_SUCCESS_BODY`; other JSON
yields `UPSTREAM_JSON_ERROR`. Otherwise (non-JSON content type, or the
parse threw and fell through the empty `catch`): `UPSTREAM_TEXT_ERROR`
with the trimmed body truncated to 500 characters, or a generic
message when the trimmed body is empty. -/
def extractFailureFromHttpError (res : Response) : Js :=
  let status := res.status
  let url := res.url
  let statusText := res.statusText
  let ctype := res.contentType.getD ""
  let rawText := res.bodyText
  let jsonBranch : Option Js :=
    if strIncludes ctype "application/json" then
      (jsonParse rawText).map (fun json =>
        if looksLikeApiResponse json then
          match json.get "success" with
          | .bool false => json
          | _ =>
            .obj (JsFields.ofList
              [("success", .bool false), ("statusCode", .num (status : Int)),
               ("error", .obj (JsFields.ofList
                 [("code", .str "HTTP_ERROR_WITH_SUCCESS_BODY"),
                  ("message", .str "HTTP failed but body indicates success"),
                  ("details", .obj (JsFields.ofList
                    [("url", .str url), ("statusText", .str statusText),
                     ("body", json)]))]))])
        else
          .obj (JsFields.ofList
            [("success", .bool false), ("statusCode", .num (status : Int)),
             ("error", .obj (JsFields.ofList
               [("code", .str "UPSTREAM_JSON_ERROR"),
                ("message",
                  jsOr ((json.optGet "error").optGet "message")
                    (jsOr (json.optGet "message") (.str "Upstream JSON error"))),
                ("details", .obj (JsFields.ofList
                  [("url", .str url), ("statusText", .str statusText),
                   ("body", json)]))]))]))
    else none
  match jsonBranch with
  | some failure => failure
  | none =>
    let msg := strTrim rawText
    .obj (JsFields.ofList
      [("success", .bool false), ("statusCode", .num (status : Int)),
       ("error", .obj (JsFields.ofList
         [("code", .str "UPSTREAM_TEXT_ERROR"),
          ("message", if msg = "" then .str "Upstream error" else .str (strTake msg 500)),
          ("details", .obj (JsFields.ofList
            [("url", .str url), ("statusText", .str statusText)]))]))])

/-- Model of `toApiErrorAsync` (`ky-client.ts`): an `HTTPError` is converted via
`extractFailureFromHttpError`; anything else becomes an
`UNKNOWN_ERROR` failure with `statusCode: 0`, message from
`error instanceof Error ? error.message : "Unknown error"`, and
`details: error` (the original thrown value). `none` models the one
path outside the model: a plain object merely shaped like an
`HTTPError`, on which the code would dereference a non-`Response`. -/
def toApiErrorAsync (error : Js) : Option Js :=
  if isHTTPError error then
    match error with
    | .httpErr res _ => some (newApiError (extractFailureFromHttpError res))
    | _ => none
  else
    some (newApiError (.obj (JsFields.ofList
      [("success", .bool false),
       ("statusCode", .num 0),
       ("error", .obj (JsFields.ofList
         [("code", .str "UNKNOWN_ERROR"),
          ("message", if isErrorInstance error then jsMessage error else .str "Unknown error"),
          ("details", error)]))])))

/-- The property list of an object (`undefined` spreads to nothing). -/
def objFields : Js → JsFields
  | .obj fs => fs
  | _ => .nil

/-- Model of `withBody(options, body)` (`ky-client.ts`): shallow-copy the
options; when the explicit `body` argument is defined, drop any
`json` / `body` keys from the copy, then forward `FormData`, `Blob`,
`ArrayBuffer`s and views, `URLSearchParams` and strings under the
`body` option and everything else under the `json` option; when `body`
is `undefined`, return the copied options unchanged. -/
def withBody (options body : Js) : Js :=
  let next : Js := if options.truthy then .obj (objFields options) else .undefined
  match body with
  | .undefined => next
  | _ =>
    let cleaned : JsFields := ((objFields next).eraseKey "json").eraseKey "body"
    match body with
    | .formData _ => .obj (cleaned.push "body" body)
    | .blob _ => .obj (cleaned.push "body" body)
    | .arrayBuffer _ => .obj (cleaned.push "body" body)
    | .typedArray _ => .obj (cleaned.push "body" body)
    | .urlSearchParams _ => .obj (cleaned.push "body" body)
    | .str _ => .obj (cleaned.push "body" body)
    | _ => .obj (cleaned.push "json" body)

/-- Outcome of the underlying `ky` call: the transport resolved with a
response, or rejected with a thrown value. -/
inductive CallOutcome where
  | ok (response : Response)
  | thrown (error : Js)

/-- The shared body of every verb helper: parse the resolved response,
`ensureOk` it, and normalize anything thrown (including the `ApiError`
thrown by `ensureOk`, which the `catch` re-wraps through
`toApiErrorAsync`) into a thrown `ApiError`. `some (.ok s)` models a
successful return, `some (.error e)` a thrown value. -/
def runVerb (outcome : CallOutcome) : Option (Except Js Js) :=
  match outcome with
  | .ok response =>
    match ensureOk (parseApiResponse response) with
    | .ok success => some (.ok success)
    | .error apiError => (toApiErrorAsync apiError).map .error
  | .thrown error => (toApiErrorAsync error).map .error

namespace http

/-- Model of `http.get` (`ky-client.ts`); the URL and options shape the request,
abstracted by the transport outcome. -/
def get (outcome : CallOutcome) : Option (Except Js Js) := runVerb outcome

/-- Model of `http.delete` (`ky-client.ts`). -/
def delete (outcome : CallOutcome) : Option (Except Js Js) := runVerb outcome

/-- Model of `http.post` (`ky-client.ts`): forwards `withBody options
requestData` to the transport. -/
def post (requestData options : Js) (outcome : CallOutcome) : Option (Except Js Js) :=
  let _requestOptions := withBody options requestData
  runVerb outcome

/-- Model of `http.put` (`ky-client.ts`). -/
def put (requestData options : Js) (outcome : CallOutcome) : Option (Except Js Js) :=
  let _requestOptions := withBody options requestData
  runVerb outcome

/-- Model of `http.patch` (`ky-client.ts`). -/
def patch (requestData options : Js) (outcome : CallOutcome) : Option (Except Js Js) :=
  let _requestOptions := withBody options requestData
  runVerb outcome

end http

/-- Model of `message` field of an `ApiError` instance. -/
def apiErrMessage : Js → Js
  | .apiErr m _ _ _ _ _ => m
  | _ => .undefined

/-- Model of `code` field of an `ApiError` instance. -/
def apiErrCode : Js → Js
  | .apiErr _ c _ _ _ _ => c
  | _ => .undefined

/-- Model of `statusCode` field of an `ApiError` instance. -/
def apiErrStatusCode : Js → Js
  | .apiErr _ _ s _ _ _ => s
  | _ => .undefined

/-- Model of `details` field of an `ApiError` instance. -/
def apiErrDetails : Js → Js
  | .apiErr _ _ _ _ d _ => d
  | _ => .undefined

/-- The body classes `withBody` forwards as the literal wire body
(`FormData`, `Blob`, `ArrayBuffer`s and views, `URLSearchParams`,
strings). -/
def isWireBody : Js → Bool
  | .formData _ => true
  | .blob _ => true
  | .arrayBuffer _ => true
  | .typedArray _ => true
  | .urlSearchParams _ => true
  | .str _ => true
  | _ => false

/-- The option fields `withBody` forwards when an explicit body is
given: the caller's options with any `json` / `body` keys removed. -/
def forwardedFields (options : Js) : JsFields :=
  ((objFields options).eraseKey "json").eraseKey "body"

/-- The transport outcomes realizable by the `ky` call inside the verb
helpers: when it rejects, the thrown value is a genuine `HTTPError`
instance whenever it passes the `isHTTPError` probe (a plain object
merely shaped like one cannot come out of `ky`). -/
def WfOutcome : CallOutcome → Prop :=
  fun o => ∀ e, o = .thrown e → isHTTPError e = true → ∃ r m, e = .httpErr r m

/-- Truncation really bounds the length. -/
theorem strTake_length_le (s : String) (n : Nat) : (strTake s n).length ≤ n :=
  List.length_take_le n s.data

/-- C4: for every raw response with an empty body text, if the
transport reported success (2xx, `response.ok`), `parseApiResponse`
returns a `Success` envelope with `data` undefined; otherwise it
returns a `Failure` envelope with error code `"EMPTY_ERROR_BODY"` and
the response's status code. -/
theorem parseApiResponse_empty_body (response : Response)
    (h : response.bodyText = "") :
    (response.ok = true →
      parseApiResponse response =
        .obj (JsFields.ofList
          [("success", .bool true), ("data", .undefined),
           ("statusCode", .num (response.status : Int))])) ∧
    (response.ok = false →
      parseApiResponse response =
        .obj (JsFields.ofList
          [("success", .bool false), ("statusCode", .num (response.status : Int)),
           ("error", .obj (JsFields.ofList
             [("code", .str "EMPTY_ERROR_BODY"),
              ("message", .str "Empty response body"),
              ("details", .obj (JsFields.ofList
                [("url", .str response.url),
                 ("statusText", .str response.statusText)]))]))])) := by
  constructor <;> intro hok <;> simp [parseApiResponse, h, hok]

/-- C4 witness: a 204 response with an empty body parses to the
synthesized `Success`, and a 500 response with an empty body parses to
the `EMPTY_ERROR_BODY` `Failure`. -/
theorem parseApiResponse_empty_body_witness :
    ((Response.mk 204 "No Content" "https://example.com/api/profiles" none "").bodyText = ""
      ∧ ((Response.mk 204 "No Content" "https://example.com/api/profiles" none "").ok = true →
          parseApiResponse (Response.mk 204 "No Content" "https://example.com/api/profiles" none "") =
            .obj (JsFields.ofList
              [("success", .bool true), ("data", .undefined), ("statusCode", .num 204)]))
      ∧ ((Response.mk 204 "No Content" "https://example.com/api/profiles" none "").ok = false →
          parseApiResponse (Response.mk 204 "No Content" "https://example.com/api/profiles" none "") =
            .obj (JsFields.ofList
              [("success", .bool false), ("statusCode", .num 204),
               ("error", .obj (JsFields.ofList
                 [("code", .str "EMPTY_ERROR_BODY"),
                  ("message", .str "Empty response body"),
                  ("details", .obj (JsFields.ofList
                    [("url", .str "https://example.com/api/profiles"),
                     ("statusText", .str "No Content")]))]))]))) := by
  refine ⟨rfl, ?_⟩
  exact parseApiResponse_empty_body (Response.mk 204 "No Content" "https://example.com/api/profiles" none "") rfl

/-- C5: for every non-empty body text that `JSON.parse` rejects,
`parseApiResponse` returns a `Failure` with code `"INVALID_JSON"` whose
`details.raw` carries the raw text truncated to at most 200
characters. -/
theorem parseApiResponse_invalid_json (response : Response)
    (hne : response.bodyText ≠ "") (hp : jsonParse response.bodyText = none) :
    parseApiResponse response =
      .obj (JsFields.ofList
        [("success", .bool false), ("statusCode", .num (response.status : Int)),
         ("error", .obj (JsFields.ofList
           [("code", .str "INVALID_JSON"),
            ("message", .str "Response is not valid JSON"),
            ("details", .obj (JsFields.ofList
              [("url", .str response.url),
               ("raw", .str (strTake response.bodyText 200))]))]))]) ∧
    (strTake response.bodyText 200).length ≤ 200 := by
  exact ⟨by simp [parseApiResponse, hne, hp], strTake_length_le _ _⟩

/-- C5 witness: an HTML error page body is rejected by the JSON parse
and reported as `INVALID_JSON` with the raw excerpt. -/
theorem parseApiResponse_invalid_json_witness :
    ((Response.mk 200 "OK" "https://example.com/api" (some "text/html") "<html>oops</html>").bodyText ≠ ""
      ∧ jsonParse (Response.mk 200 "OK" "https://example.com/api" (some "text/html") "<html>oops</html>").bodyText = none)
    ∧ (parseApiResponse (Response.mk 200 "OK" "https://example.com/api" (some "text/html") "<html>oops</html>") =
        .obj (JsFields.ofList
          [("success", .bool false), ("statusCode", .num 200),
           ("error", .obj (JsFields.ofList
             [("code", .str "INVALID_JSON"),
              ("message", .str "Response is not valid JSON"),
              ("details", .obj (JsFields.ofList
                [("url", .str "https://example.com/api"),
                 ("raw", .str (strTake "<html>oops</html>" 200))]))]))])
        ∧ (strTake "<html>oops</html>" 200).length ≤ 200) := by
  refine ⟨⟨by decide, by decide⟩, ?_⟩
  exact parseApiResponse_invalid_json
    (Response.mk 200 "OK" "https://example.com/api" (some "text/html") "<html>oops</html>")
    (by decide) (by decide)

/-- C6: for every non-empty body text that parses as JSON,
`parseApiResponse` returns the parsed value as-is, without modification
or validation; in particular a `Success`-shaped body keeps `success =
true` and its `data` field unchanged. -/
theorem parseApiResponse_valid_json_as_is (response : Response) (j : Js)
    (hne : response.bodyText ≠ "") (hp : jsonParse response.bodyText = some j) :
    parseApiResponse response = j ∧
    (j.get "success" = .bool true →
      (parseApiResponse response).get "success" = .bool true ∧
      (parseApiResponse response).get "data" = j.get "data") := by
  have h1 : parseApiResponse response = j := by simp [parseApiResponse, hne, hp]
  exact ⟨h1, fun hs => ⟨h1 ▸ hs, by rw [h1]⟩⟩

/-- C6 witness: the body `{"success":true,"data":{"id":"1"}}` is
returned verbatim with its `data` intact. -/
theorem parseApiResponse_valid_json_witness :
    ((Response.mk 200 "OK" "https://example.com/api" (some "application/json")
        "\x7b\"success\":true,\"data\":\x7b\"id\":\"1\"\x7d\x7d").bodyText ≠ ""
      ∧ jsonParse (Response.mk 200 "OK" "https://example.com/api" (some "application/json")
          "\x7b\"success\":true,\"data\":\x7b\"id\":\"1\"\x7d\x7d").bodyText =
        some (.obj (JsFields.ofList
          [("success", .bool true),
           ("data", .obj (JsFields.ofList [("id", .str "1")]))])))
    ∧ (parseApiResponse (Response.mk 200 "OK" "https://example.com/api" (some "application/json")
          "\x7b\"success\":true,\"data\":\x7b\"id\":\"1\"\x7d\x7d") =
        .obj (JsFields.ofList
          [("success", .bool true),
           ("data", .obj (JsFields.ofList [("id", .str "1")]))])
        ∧ ((Js.obj (JsFields.ofList
              [("success", .bool true),
               ("data", .obj (JsFields.ofList [("id", .str "1")]))])).get "success" = .bool true →
            (parseApiResponse (Response.mk 200 "OK" "https://example.com/api" (some "application/json")
                "\x7b\"success\":true,\"data\":\x7b\"id\":\"1\"\x7d\x7d")).get "success" = .bool true ∧
            (parseApiResponse (Response.mk 200 "OK" "https://example.com/api" (some "application/json")
                "\x7b\"success\":true,\"data\":\x7b\"id\":\"1\"\x7d\x7d")).get "data" =
              (Js.obj (JsFields.ofList
                [("success", .bool true),
                 ("data", .obj (JsFields.ofList [("id", .str "1")]))])).get "data")) := by
  refine ⟨⟨by decide, by decide⟩, ?_⟩
  exact parseApiResponse_valid_json_as_is
    (Response.mk 200 "OK" "https://example.com/api" (some "application/json")
      "\x7b\"success\":true,\"data\":\x7b\"id\":\"1\"\x7d\x7d")
    (.obj (JsFields.ofList
      [("success", .bool true),
       ("data", .obj (JsFields.ofList [("id", .str "1")]))]))
    (by decide) (by decide)

/-- C7: whenever the JSON route is not taken (content type does not
include `application/json`, or the body fails to parse as JSON), the
failure extractor synthesizes `UPSTREAM_TEXT_ERROR` with message the
first 500 characters of the trimmed body text, or the generic
`"Upstream error"` when the trimmed body is empty; the message never
exceeds 500 characters. -/
theorem extractFailure_text_fallback (res : Response)
    (h : strIncludes (res.contentType.getD "") "application/json" = false ∨
      jsonParse res.bodyText = none) :
    extractFailureFromHttpError res =
      .obj (JsFields.ofList
        [("success", .bool false), ("statusCode", .num (res.status : Int)),
         ("error", .obj (JsFields.ofList
           [("code", .str "UPSTREAM_TEXT_ERROR"),
            ("message",
              if strTrim res.bodyText = "" then .str "Upstream error"
              else .str (strTake (strTrim res.bodyText) 500)),
            ("details", .obj (JsFields.ofList
              [("url", .str res.url),
               ("statusText", .str res.statusText)]))]))]) ∧
    (strTake (strTrim res.bodyText) 500).length ≤ 500 := by
  refine ⟨?_, strTake_length_le _ _⟩
  rcases h with h | h
  · simp [extractFailureFromHttpError, h]
  · by_cases hc : strIncludes (res.contentType.getD "") "application/json" <;>
      simp [extractFailureFromHttpError, h, hc]

/-- C7 witness (spec scenario 3): HTTP 500 with the HTML body
`<html>Internal Error</html>` and a non-JSON content type yields
`UPSTREAM_TEXT_ERROR` with the trimmed body as message. -/
theorem extractFailure_text_fallback_witness :
    (strIncludes ((Response.mk 500 "Internal Server Error" "https://example.com/api"
          (some "text/html") "<html>Internal Error</html>").contentType.getD "")
        "application/json" = false ∨
      jsonParse (Response.mk 500 "Internal Server Error" "https://example.com/api"
          (some "text/html") "<html>Internal Error</html>").bodyText = none)
    ∧ (extractFailureFromHttpError (Response.mk 500 "Internal Server Error"
          "https://example.com/api" (some "text/html") "<html>Internal Error</html>") =
        .obj (JsFields.ofList
          [("success", .bool false), ("statusCode", .num 500),
           ("error", .obj (JsFields.ofList
             [("code", .str "UPSTREAM_TEXT_ERROR"),
              ("message",
                if strTrim "<html>Internal Error</html>" = "" then .str "Upstream error"
                else .str (strTake (strTrim "<html>Internal Error</html>") 500)),
              ("details", .obj (JsFields.ofList
                [("url", .str "https://example.com/api"),
                 ("statusText", .str "Internal Server Error")]))]))])
        ∧ (strTake (strTrim "<html>Internal Error</html>") 500).length ≤ 500) := by
  refine ⟨Or.inl (by decide), ?_⟩
  exact extractFailure_text_fallback
    (Response.mk 500 "Internal Server Error" "https://example.com/api"
      (some "text/html") "<html>Internal Error</html>")
    (Or.inl (by decide))

/-- C2 counterexample: on an HTTP failure whose JSON body claims
success (`{"success":true}` with status 500), the extractor's code is
the string `"HTTP_ERROR_WITH_SUCCESS_BODY"`, not
`"UPSTREAM_INCONSISTENT"` as the claim states. -/
theorem extractFailure_success_body_code_cex :
    ((extractFailureFromHttpError (Response.mk 500 "Internal Server Error"
        "https://example.com/api" (some "application/json") "\x7b\"success\":true\x7d")).get
          "error").get "code" = .str "HTTP_ERROR_WITH_SUCCESS_BODY" ∧
    ¬ (((extractFailureFromHttpError (Response.mk 500 "Internal Server Error"
        "https://example.com/api" (some "application/json") "\x7b\"success\":true\x7d")).get
          "error").get "code" = .str "UPSTREAM_INCONSISTENT") := by
  decide

/-- Shared computation: the claims-success branch of
`extractFailureFromHttpError`. -/
theorem extract_success_body_eq (res : Response) (j : Js)
    (hct : strIncludes (res.contentType.getD "") "application/json" = true)
    (hp : jsonParse res.bodyText = some j)
    (hl : looksLikeApiResponse j = true)
    (hs : j.get "success" ≠ .bool false) :
    extractFailureFromHttpError res =
      .obj (JsFields.ofList
        [("success", .bool false), ("statusCode", .num (res.status : Int)),
         ("error", .obj (JsFields.ofList
           [("code", .str "HTTP_ERROR_WITH_SUCCESS_BODY"),
            ("message", .str "HTTP failed but body indicates success"),
            ("details", .obj (JsFields.ofList
              [("url", .str res.url), ("statusText", .str res.statusText),
               ("body", j)]))]))]) := by
  simp only [extractFailureFromHttpError, hct, hp, hl, Option.map_some', eq_self_iff_true,
    if_true]

/-- Shared computation: the verbatim-failure branch of
`extractFailureFromHttpError` (body with `success === false`). -/
theorem extract_failure_verbatim_eq (res : Response) (j : Js)
    (hct : strIncludes (res.contentType.getD "") "application/json" = true)
    (hp : jsonParse res.bodyText = some j)
    (hl : looksLikeApiResponse j = true)
    (hs : j.get "success" = .bool false) :
    extractFailureFromHttpError res = j := by
  simp [extractFailureFromHttpError, hct, hp, hl, hs]

/-- A defined property read pins down the shape: the base is an object
and the key is present with that value. -/
theorem get_defined_shape (j : Js) (k : String) (v : Js) (hv : v ≠ .undefined)
    (h : j.get k = v) : ∃ fs, j = .obj fs ∧ fs.lookup k = some v := by
  cases j
  case obj fs =>
    rcases hlk : fs.lookup k with _ | w
    · have hg : Js.get (.obj fs) k = Js.undefined := by simp [Js.get, hlk]
      exact absurd (h.symm.trans hg) hv
    · have hg : Js.get (.obj fs) k = w := by simp [Js.get, hlk]
      exact ⟨fs, rfl, by rw [hlk]; exact congrArg some (hg.symm.trans h)⟩
  all_goals exact absurd h.symm hv

/-- C2 (amended): when the failure extractor processes an HTTP failure
whose JSON body matches the envelope shape but does not have `success
=== false`, it synthesizes a `Failure` whose error code is
`"HTTP_ERROR_WITH_SUCCESS_BODY"` and preserves the inconsistent body
under `details.body`. -/
theorem extractFailure_success_body (res : Response) (j : Js)
    (hct : strIncludes (res.contentType.getD "") "application/json" = true)
    (hp : jsonParse res.bodyText = some j)
    (hl : looksLikeApiResponse j = true)
    (hs : j.get "success" ≠ .bool false) :
    extractFailureFromHttpError res =
      .obj (JsFields.ofList
        [("success", .bool false), ("statusCode", .num (res.status : Int)),
         ("error", .obj (JsFields.ofList
           [("code", .str "HTTP_ERROR_WITH_SUCCESS_BODY"),
            ("message", .str "HTTP failed but body indicates success"),
            ("details", .obj (JsFields.ofList
              [("url", .str res.url), ("statusText", .str res.statusText),
               ("body", j)]))]))]) :=
  extract_success_body_eq res j hct hp hl hs

/-- C2 (amended) witness: status 502 with body
`{"success":true,"data":1}` produces the `HTTP_ERROR_WITH_SUCCESS_BODY`
failure carrying the body. -/
theorem extractFailure_success_body_witness :
    (strIncludes ((Response.mk 502 "Bad Gateway" "https://example.com/api"
          (some "application/json") "\x7b\"success\":true,\"data\":1\x7d").contentType.getD "")
        "application/json" = true
      ∧ jsonParse (Response.mk 502 "Bad Gateway" "https://example.com/api"
          (some "application/json") "\x7b\"success\":true,\"data\":1\x7d").bodyText =
        some (.obj (JsFields.ofList [("success", .bool true), ("data", .num 1)]))
      ∧ looksLikeApiResponse (.obj (JsFields.ofList
          [("success", .bool true), ("data", .num 1)])) = true
      ∧ (Js.obj (JsFields.ofList
          [("success", .bool true), ("data", .num 1)])).get "success" ≠ .bool false)
    ∧ extractFailureFromHttpError (Response.mk 502 "Bad Gateway" "https://example.com/api"
          (some "application/json") "\x7b\"success\":true,\"data\":1\x7d") =
      .obj (JsFields.ofList
        [("success", .bool false), ("statusCode", .num 502),
         ("error", .obj (JsFields.ofList
           [("code", .str "HTTP_ERROR_WITH_SUCCESS_BODY"),
            ("message", .str "HTTP failed but body indicates success"),
            ("details", .obj (JsFields.ofList
              [("url", .str "https://example.com/api"), ("statusText", .str "Bad Gateway"),
               ("body", .obj (JsFields.ofList
                 [("success", .bool true), ("data", .num 1)]))]))]))]) := by
  refine ⟨⟨by decide, by decide, by decide, by decide⟩, ?_⟩
  exact extractFailure_success_body
    (Response.mk 502 "Bad Gateway" "https://example.com/api"
      (some "application/json") "\x7b\"success\":true,\"data\":1\x7d")
    (.obj (JsFields.ofList [("success", .bool true), ("data", .num 1)]))
    (by decide) (by decide) (by decide) (by decide)

/-- A constructed `ApiError` is an `ApiError` instance. -/
theorem isApiErr_newApiError (f : Js) : isApiErrorInstance (newApiError f) = true := rfl

/-- A constructed `ApiError` is not an `HTTPError` (no `response`
property). -/
theorem isHTTPError_newApiError (f : Js) : isHTTPError (newApiError f) = false := rfl

/-- Shared computation: the `UNKNOWN_ERROR` branch of
`toApiErrorAsync`. -/
theorem toApiErrorAsync_nonhttp_eq (error : Js) (h : isHTTPError error = false) :
    toApiErrorAsync error = some (newApiError (.obj (JsFields.ofList
      [("success", .bool false),
       ("statusCode", .num 0),
       ("error", .obj (JsFields.ofList
         [("code", .str "UNKNOWN_ERROR"),
          ("message", if isErrorInstance error then jsMessage error else .str "Unknown error"),
          ("details", error)]))]))) := by
  simp [toApiErrorAsync, h]

/-- Every value occurs inside itself. -/
theorem contains_self (x : Js) : Js.contains x x = true := by
  rw [Js.contains.eq_def, decide_eq_true (Eq.refl x), Bool.true_or]

/-- Anything inside the `details` field occurs inside the `ApiError`. -/
theorem contains_of_details (m c s ci d f x : Js) (h : Js.contains d x = true) :
    Js.contains (.apiErr m c s ci d f) x = true := by
  rw [Js.contains.eq_def]
  simp [h]

/-- C10: envelope-shape discrimination in the error normalizer only
checks for an object carrying a `success` key; a body with `success`
exactly `false` is used verbatim as the `Failure`; a body whose
`success` key holds any other value is classified as the
HTTP-failed-but-body-claims-success case
(`HTTP_ERROR_WITH_SUCCESS_BODY`), not as a non-envelope JSON body
(`UPSTREAM_JSON_ERROR`). -/
theorem envelope_discrimination (res : Response) (j : Js)
    (hct : strIncludes (res.contentType.getD "") "application/json" = true)
    (hp : jsonParse res.bodyText = some j) :
    (looksLikeApiResponse j = true ↔ ∃ fs, j = .obj fs ∧ fs.hasKey "success" = true) ∧
    (j.get "success" = .bool false → extractFailureFromHttpError res = j) ∧
    (looksLikeApiResponse j = true → j.get "success" ≠ .bool false →
      ((extractFailureFromHttpError res).get "error").get "code" =
        .str "HTTP_ERROR_WITH_SUCCESS_BODY" ∧
      ((extractFailureFromHttpError res).get "error").get "code" ≠
        .str "UPSTREAM_JSON_ERROR") := by
  refine ⟨⟨?_, ?_⟩, ?_, ?_⟩
  · intro h
    cases j
    case obj fs =>
      exact ⟨fs, rfl, by
        simpa [looksLikeApiResponse, Js.truthy, Js.isObjectType, Js.hasKey] using h⟩
    all_goals simp [looksLikeApiResponse, Js.truthy, Js.isObjectType, Js.hasKey] at h
  · rintro ⟨fs, rfl, hk⟩
    simp [looksLikeApiResponse, Js.truthy, Js.isObjectType, Js.hasKey, hk]
  · intro hsf
    obtain ⟨fs, hj, hlk⟩ := get_defined_shape j "success" (.bool false) (by simp) hsf
    subst hj
    have hl : looksLikeApiResponse (.obj fs) = true := by
      simp [looksLikeApiResponse, Js.truthy, Js.isObjectType, Js.hasKey, JsFields.hasKey, hlk]
    exact extract_failure_verbatim_eq res _ hct hp hl hsf
  · intro hl hs
    have he := extract_success_body_eq res j hct hp hl hs
    constructor
    · rw [he]
      rfl
    · rw [he]
      intro hx
      exact absurd (Js.str.inj hx) (by decide)

/-- C10 witness: a well-formed failure body is used verbatim, and the
shape test is the `success`-key check, at the concrete body
`{"success":false,"error":{"code":"AUTH","message":"denied"}}`. -/
theorem envelope_discrimination_witness :
    (strIncludes ((Response.mk 401 "Unauthorized" "https://example.com/api/profiles"
          (some "application/json")
          "\x7b\"success\":false,\"error\":\x7b\"code\":\"AUTH\",\"message\":\"denied\"\x7d\x7d").contentType.getD "")
        "application/json" = true
      ∧ jsonParse (Response.mk 401 "Unauthorized" "https://example.com/api/profiles"
          (some "application/json")
          "\x7b\"success\":false,\"error\":\x7b\"code\":\"AUTH\",\"message\":\"denied\"\x7d\x7d").bodyText =
        some (.obj (JsFields.ofList
          [("success", .bool false),
           ("error", .obj (JsFields.ofList
             [("code", .str "AUTH"), ("message", .str "denied")]))])))
    ∧ ((looksLikeApiResponse (.obj (JsFields.ofList
          [("success", .bool false),
           ("error", .obj (JsFields.ofList
             [("code", .str "AUTH"), ("message", .str "denied")]))])) = true ↔
        ∃ fs, Js.obj (JsFields.ofList
          [("success", .bool false),
           ("error", .obj (JsFields.ofList
             [("code", .str "AUTH"), ("message", .str "denied")]))]) = .obj fs ∧
          fs.hasKey "success" = true)
      ∧ ((Js.obj (JsFields.ofList
          [("success", .bool false),
           ("error", .obj (JsFields.ofList
             [("code", .str "AUTH"), ("message", .str "denied")]))])).get "success" = .bool false →
          extractFailureFromHttpError (Response.mk 401 "Unauthorized"
            "https://example.com/api/profiles" (some "application/json")
            "\x7b\"success\":false,\"error\":\x7b\"code\":\"AUTH\",\"message\":\"denied\"\x7d\x7d") =
            .obj (JsFields.ofList
              [("success", .bool false),
               ("error", .obj (JsFields.ofList
                 [("code", .str "AUTH"), ("message", .str "denied")]))]))
      ∧ (looksLikeApiResponse (.obj (JsFields.ofList
            [("success", .bool false),
             ("error", .obj (JsFields.ofList
               [("code", .str "AUTH"), ("message", .str "denied")]))])) = true →
          (Js.obj (JsFields.ofList
            [("success", .bool false),
             ("error", .obj (JsFields.ofList
               [("code", .str "AUTH"), ("message", .str "denied")]))])).get "success" ≠ .bool false →
          ((extractFailureFromHttpError (Response.mk 401 "Unauthorized"
              "https://example.com/api/profiles" (some "application/json")
              "\x7b\"success\":false,\"error\":\x7b\"code\":\"AUTH\",\"message\":\"denied\"\x7d\x7d")).get
                "error").get "code" = .str "HTTP_ERROR_WITH_SUCCESS_BODY" ∧
          ((extractFailureFromHttpError (Response.mk 401 "Unauthorized"
              "https://example.com/api/profiles" (some "application/json")
              "\x7b\"success\":false,\"error\":\x7b\"code\":\"AUTH\",\"message\":\"denied\"\x7d\x7d")).get
                "error").get "code" ≠ .str "UPSTREAM_JSON_ERROR")) := by
  refine ⟨⟨by decide, by decide⟩, ?_⟩
  exact envelope_discrimination
    (Response.mk 401 "Unauthorized" "https://example.com/api/profiles"
      (some "application/json")
      "\x7b\"success\":false,\"error\":\x7b\"code\":\"AUTH\",\"message\":\"denied\"\x7d\x7d")
    (.obj (JsFields.ofList
      [("success", .bool false),
       ("error", .obj (JsFields.ofList
         [("code", .str "AUTH"), ("message", .str "denied")]))]))
    (by decide) (by decide)

/-- C3 counterexample: normalizing a concrete thrown `HTTPError` whose
body is a well-formed failure envelope produces an `ApiError` from
which the original thrown value is not reachable at all — in
particular it is not carried as a cause (the `ApiError` constructor
passes no `cause` to `super`). -/
theorem toApiErrorAsync_no_cause_cex :
    ((toApiErrorAsync (.httpErr (Response.mk 500 "Internal Server Error"
        "https://example.com/api/profiles" (some "application/json")
        "\x7b\"success\":false\x7d")
        "Request failed with status code 500 Internal Server Error")).map
      (fun a => Js.contains a (.httpErr (Response.mk 500 "Internal Server Error"
        "https://example.com/api/profiles" (some "application/json")
        "\x7b\"success\":false\x7d")
        "Request failed with status code 500 Internal Server Error"))) = some false := by
  decide

/-- C3 (amended): only for thrown values that are not `HTTPError`s does
the normalized error retain the original thrown value — it is stored in
the `ApiError`'s `details` (hence reachable from the error object); no
`cause` link exists, and for HTTP errors the `ApiError` is built solely
from the response body. -/
theorem toApiErrorAsync_preserves_nonhttp (error : Js)
    (h : isHTTPError error = false) :
    ∃ a, toApiErrorAsync error = some a ∧ apiErrDetails a = error ∧
      Js.contains a error = true := by
  refine ⟨newApiError (.obj (JsFields.ofList
      [("success", .bool false),
       ("statusCode", .num 0),
       ("error", .obj (JsFields.ofList
         [("code", .str "UNKNOWN_ERROR"),
          ("message", if isErrorInstance error then jsMessage error else .str "Unknown error"),
          ("details", error)]))])),
    toApiErrorAsync_nonhttp_eq error h, rfl, ?_⟩
  exact contains_of_details _ _ _ _ _ _ _ (contains_self error)

/-- C3 (amended) witness: an abort error is preserved in the produced
`ApiError`'s `details`. -/
theorem toApiErrorAsync_preserves_nonhttp_witness :
    isHTTPError (.errObj "AbortError" "The user aborted a request.") = false ∧
    ∃ a, toApiErrorAsync (.errObj "AbortError" "The user aborted a request.") = some a ∧
      apiErrDetails a = .errObj "AbortError" "The user aborted a request." ∧
      Js.contains a (.errObj "AbortError" "The user aborted a request.") = true := by
  exact ⟨rfl, toApiErrorAsync_preserves_nonhttp (.errObj "AbortError" "The user aborted a request.") rfl⟩

/-- C8: every thrown value that is not an HTTP error is normalized to
an `ApiError` with code `"UNKNOWN_ERROR"`, `statusCode` 0, `details`
equal to the original thrown value, and message taken from the
exception's message when the thrown value is an `Error` carrying one,
else the generic `"Unknown error"`. -/
theorem toApiErrorAsync_unknown_error (error : Js)
    (h : isHTTPError error = false) :
    ∃ a, toApiErrorAsync error = some a ∧ isApiErrorInstance a = true ∧
      apiErrCode a = .str "UNKNOWN_ERROR" ∧ apiErrStatusCode a = .num 0 ∧
      apiErrDetails a = error ∧
      (isErrorInstance error = false → apiErrMessage a = .str "Unknown error") ∧
      (isErrorInstance error = true → (jsMessage error).nullish = false →
        apiErrMessage a = jsMessage error) := by
  refine ⟨newApiError (.obj (JsFields.ofList
      [("success", .bool false),
       ("statusCode", .num 0),
       ("error", .obj (JsFields.ofList
         [("code", .str "UNKNOWN_ERROR"),
          ("message", if isErrorInstance error then jsMessage error else .str "Unknown error"),
          ("details", error)]))])),
    toApiErrorAsync_nonhttp_eq error h, rfl, rfl, rfl, rfl, ?_, ?_⟩
  · intro hne
    have hM : apiErrMessage (newApiError (.obj (JsFields.ofList
        [("success", .bool false),
         ("statusCode", .num 0),
         ("error", .obj (JsFields.ofList
           [("code", .str "UNKNOWN_ERROR"),
            ("message", if isErrorInstance error then jsMessage error else .str "Unknown error"),
            ("details", error)]))]))) =
        coalesce (if isErrorInstance error then jsMessage error else .str "Unknown error")
          (.str "API Error") := rfl
    rw [hM, hne]
    rfl
  · intro he hnn
    have hM : apiErrMessage (newApiError (.obj (JsFields.ofList
        [("success", .bool false),
         ("statusCode", .num 0),
         ("error", .obj (JsFields.ofList
           [("code", .str "UNKNOWN_ERROR"),
            ("message", if isErrorInstance error then jsMessage error else .str "Unknown error"),
            ("details", error)]))]))) =
        coalesce (if isErrorInstance error then jsMessage error else .str "Unknown error")
          (.str "API Error") := rfl
    rw [hM, he]
    simp [coalesce, hnn]

/-- C8 witness: a network-failure `TypeError` maps to `UNKNOWN_ERROR`
with status 0, the original error in `details`, and its message. -/
theorem toApiErrorAsync_unknown_error_witness :
    isHTTPError (.errObj "TypeError" "Failed to fetch") = false ∧
    ∃ a, toApiErrorAsync (.errObj "TypeError" "Failed to fetch") = some a ∧
      isApiErrorInstance a = true ∧
      apiErrCode a = .str "UNKNOWN_ERROR" ∧ apiErrStatusCode a = .num 0 ∧
      apiErrDetails a = .errObj "TypeError" "Failed to fetch" ∧
      (isErrorInstance (.errObj "TypeError" "Failed to fetch") = false →
        apiErrMessage a = .str "Unknown error") ∧
      (isErrorInstance (.errObj "TypeError" "Failed to fetch") = true →
        (jsMessage (.errObj "TypeError" "Failed to fetch")).nullish = false →
        apiErrMessage a = jsMessage (.errObj "TypeError" "Failed to fetch")) := by
  exact ⟨rfl, toApiErrorAsync_unknown_error (.errObj "TypeError" "Failed to fetch") rfl⟩

/-- Copying the options (`options ? { ...options } : undefined`) keeps
the same property list. -/
theorem objFields_copy (options : Js) :
    objFields (if options.truthy then Js.obj (objFields options) else Js.undefined) =
      objFields options := by
  by_cases h : options.truthy
  · simp [h, objFields]
  · have hnil : objFields options = .nil := by
      cases options <;> simp [objFields]
      simp [Js.truthy] at h
    rw [if_neg h, hnil]
    rfl

/-- Deleting a key removes it. -/
theorem hasKey_eraseKey_self : (fs : JsFields) → (k : String) →
    (fs.eraseKey k).hasKey k = false
  | .nil, _ => rfl
  | .cons k' v t, k => by
    by_cases h : k' = k
    · simpa [JsFields.eraseKey, h] using hasKey_eraseKey_self t k
    · simpa [JsFields.eraseKey, JsFields.hasKey, JsFields.lookup, h] using
        hasKey_eraseKey_self t k

/-- Deleting one key leaves the presence of another unchanged. -/
theorem hasKey_eraseKey_other : (fs : JsFields) → (k k' : String) → k ≠ k' →
    (fs.eraseKey k').hasKey k = fs.hasKey k
  | .nil, _, _, _ => rfl
  | .cons k2 v t, k, k', h => by
    by_cases h2 : k2 = k'
    · have hk2 : ¬ k' = k := fun hh => h hh.symm
      simpa [JsFields.eraseKey, JsFields.hasKey, JsFields.lookup, h2, hk2] using
        hasKey_eraseKey_other t k k' h
    · by_cases h3 : k2 = k
      · simp [JsFields.eraseKey, JsFields.hasKey, JsFields.lookup, h2, h3, h]
      · simpa [JsFields.eraseKey, JsFields.hasKey, JsFields.lookup, h2, h3] using
          hasKey_eraseKey_other t k k' h

/-- C9: for every write-verb body selection — an explicit defined body
argument drops any `json`/`body` keys from the forwarded options;
`FormData`, `Blob`, `ArrayBuffer`s and views, `URLSearchParams` and
strings are forwarded as the literal `body` option, every other defined
value as the `json` option; with no body argument the options are
forwarded unchanged; and the forwarded option list never retains
`json` or `body` keys from the overrides. -/
theorem withBody_policy (options body : Js) :
    (body = Js.undefined →
      withBody options body =
        (if options.truthy then Js.obj (objFields options) else Js.undefined) ∧
      ((options = Js.undefined ∨ ∃ fs, options = .obj fs) → withBody options body = options)) ∧
    (isWireBody body = true →
      withBody options body = .obj ((forwardedFields options).push "body" body)) ∧
    (body ≠ Js.undefined → isWireBody body = false →
      withBody options body = .obj ((forwardedFields options).push "json" body)) ∧
    ((forwardedFields options).hasKey "json" = false ∧
      (forwardedFields options).hasKey "body" = false) := by
  refine ⟨?_, ?_, ?_, ?_, ?_⟩
  · intro hb
    subst hb
    refine ⟨rfl, ?_⟩
    rintro (rfl | ⟨fs, rfl⟩) <;> rfl
  · intro hw
    cases body <;> simp [isWireBody] at hw <;>
      simp [withBody, forwardedFields, objFields_copy]
  · intro hb hw
    cases body
    case undefined => exact absurd rfl hb
    case formData t => simp [isWireBody] at hw
    case blob t => simp [isWireBody] at hw
    case arrayBuffer t => simp [isWireBody] at hw
    case typedArray t => simp [isWireBody] at hw
    case urlSearchParams t => simp [isWireBody] at hw
    case str s => simp [isWireBody] at hw
    all_goals simp [withBody, forwardedFields, objFields_copy]
  · rw [forwardedFields, hasKey_eraseKey_other _ _ _ (by decide)]
    exact hasKey_eraseKey_self _ _
  · exact hasKey_eraseKey_self _ _

/-- C9 witness: a `FormData` body ignores a `json` field in the
overrides and is forwarded as the literal wire body, keeping the other
options. -/
theorem withBody_policy_witness :
    isWireBody (.formData 7) = true ∧
    withBody (.obj (JsFields.ofList
        [("json", .obj (JsFields.ofList [("name", .str "jin")])),
         ("headers", .str "h1")]))
      (.formData 7) =
      .obj ((forwardedFields (.obj (JsFields.ofList
        [("json", .obj (JsFields.ofList [("name", .str "jin")])),
         ("headers", .str "h1")]))).push "body" (.formData 7)) ∧
    withBody (.obj (JsFields.ofList
        [("json", .obj (JsFields.ofList [("name", .str "jin")])),
         ("headers", .str "h1")]))
      (.formData 7) =
      .obj (JsFields.ofList [("headers", .str "h1"), ("body", .formData 7)]) := by
  refine ⟨rfl, (withBody_policy _ _).2.1 rfl, by decide⟩

/-- The verb pipeline yields either the parsed success envelope or a
thrown `ApiError`: exhaustive case analysis over realizable
outcomes. -/
theorem runVerb_shape (o : CallOutcome) (hwf : WfOutcome o) :
    (∃ resp, o = .ok resp ∧ isOk (parseApiResponse resp) = true ∧
      runVerb o = some (.ok (parseApiResponse resp))) ∨
    (∃ f, runVerb o = some (.error (newApiError f))) := by
  cases o with
  | ok resp =>
    by_cases hok : isOk (parseApiResponse resp)
    · exact Or.inl ⟨resp, rfl, hok, by simp [runVerb, ensureOk, hok]⟩
    · right
      have hok' : isOk (parseApiResponse resp) = false := by simpa using hok
      have h1 : ensureOk (parseApiResponse resp) =
          .error (newApiError (parseApiResponse resp)) := by
        simp [ensureOk, hok']
      have h2 := toApiErrorAsync_nonhttp_eq (newApiError (parseApiResponse resp))
        (isHTTPError_newApiError _)
      refine ⟨.obj (JsFields.ofList
        [("success", .bool false),
         ("statusCode", .num 0),
         ("error", .obj (JsFields.ofList
           [("code", .str "UNKNOWN_ERROR"),
            ("message",
              if isErrorInstance (newApiError (parseApiResponse resp)) then
                jsMessage (newApiError (parseApiResponse resp))
              else .str "Unknown error"),
            ("details", newApiError (parseApiResponse resp))]))]), ?_⟩
      simp [runVerb, h1, h2]
  | thrown e =>
    right
    by_cases hhe : isHTTPError e = true
    · obtain ⟨r, m, rfl⟩ := hwf e rfl hhe
      exact ⟨extractFailureFromHttpError r, rfl⟩
    · have hhe' : isHTTPError e = false := by simpa using hhe
      refine ⟨.obj (JsFields.ofList
        [("success", .bool false),
         ("statusCode", .num 0),
         ("error", .obj (JsFields.ofList
           [("code", .str "UNKNOWN_ERROR"),
            ("message", if isErrorInstance e then jsMessage e else .str "Unknown error"),
            ("details", e)]))]), ?_⟩
      simp [runVerb, toApiErrorAsync_nonhttp_eq e hhe']

/-- C1: for every HTTP verb helper (`get`, `delete`, `post`, `put`,
`patch`) over a realizable transport outcome: when the call resolves
and the parsed response is a `Success` envelope, the helper returns
exactly that envelope; every successful return is a `Success` envelope;
everything thrown is an `ApiError` instance; the helper always settles;
and all five verbs share this behaviour. The caller never receives a
`Failure` envelope through a successful return path. -/
theorem http_verbs_success_or_apiError (o : CallOutcome) (hwf : WfOutcome o) :
    (∀ resp, o = .ok resp → isOk (parseApiResponse resp) = true →
      http.get o = some (.ok (parseApiResponse resp))) ∧
    (∀ s, http.get o = some (.ok s) → isOk s = true) ∧
    (∀ e, http.get o = some (.error e) → isApiErrorInstance e = true) ∧
    (∃ r, http.get o = some r) ∧
    http.delete o = http.get o ∧
    (∀ requestData options, http.post requestData options o = http.get o ∧
      http.put requestData options o = http.get o ∧
      http.patch requestData options o = http.get o) := by
  rcases runVerb_shape o hwf with ⟨resp, rfl, hok, hrun⟩ | ⟨f, hrun⟩
  · refine ⟨?_, ?_, ?_, ⟨_, hrun⟩, rfl, fun _ _ => ⟨rfl, rfl, rfl⟩⟩
    · intro resp' h1 h2
      cases h1
      exact hrun
    · intro s hs
      rw [show http.get (.ok resp) = runVerb (.ok resp) from rfl, hrun] at hs
      have h1 := Option.some.inj hs
      have h2 := Except.ok.inj h1
      rw [← h2]
      exact hok
    · intro e he
      rw [show http.get (.ok resp) = runVerb (.ok resp) from rfl, hrun] at he
      exact (Except.noConfusion (Option.some.inj he))
  · refine ⟨?_, ?_, ?_, ⟨_, hrun⟩, rfl, fun _ _ => ⟨rfl, rfl, rfl⟩⟩
    · intro resp h1 h2
      subst h1
      show runVerb (.ok resp) = some (.ok (parseApiResponse resp))
      simp [runVerb, ensureOk, h2]
    · intro s hs
      rw [show http.get o = runVerb o from rfl, hrun] at hs
      exact (Except.noConfusion (Option.some.inj hs))
    · intro e he
      rw [show http.get o = runVerb o from rfl, hrun] at he
      have h2 := Except.error.inj (Option.some.inj he)
      rw [← h2]
      exact isApiErr_newApiError f

/-- C1 witness (spec scenario 4): a resolved HTTP 200 with body
`{"success":true,"data":{"id":"1"}}` makes every verb helper return
that `Success` envelope. -/
theorem http_verbs_success_or_apiError_witness :
    WfOutcome (.ok (Response.mk 200 "OK" "https://example.com/api/profiles"
      (some "application/json") "\x7b\"success\":true,\"data\":\x7b\"id\":\"1\"\x7d\x7d")) ∧
    ((∀ resp, CallOutcome.ok (Response.mk 200 "OK" "https://example.com/api/profiles"
        (some "application/json") "\x7b\"success\":true,\"data\":\x7b\"id\":\"1\"\x7d\x7d") = .ok resp →
      isOk (parseApiResponse resp) = true →
      http.get (.ok (Response.mk 200 "OK" "https://example.com/api/profiles"
        (some "application/json") "\x7b\"success\":true,\"data\":\x7b\"id\":\"1\"\x7d\x7d")) =
        some (.ok (parseApiResponse resp))) ∧
    (∀ s, http.get (.ok (Response.mk 200 "OK" "https://example.com/api/profiles"
        (some "application/json") "\x7b\"success\":true,\"data\":\x7b\"id\":\"1\"\x7d\x7d")) =
        some (.ok s) → isOk s = true) ∧
    (∀ e, http.get (.ok (Response.mk 200 "OK" "https://example.com/api/profiles"
        (some "application/json") "\x7b\"success\":true,\"data\":\x7b\"id\":\"1\"\x7d\x7d")) =
        some (.error e) → isApiErrorInstance e = true) ∧
    (∃ r, http.get (.ok (Response.mk 200 "OK" "https://example.com/api/profiles"
        (some "application/json") "\x7b\"success\":true,\"data\":\x7b\"id\":\"1\"\x7d\x7d")) = some r) ∧
    http.delete (.ok (Response.mk 200 "OK" "https://example.com/api/profiles"
        (some "application/json") "\x7b\"success\":true,\"data\":\x7b\"id\":\"1\"\x7d\x7d")) =
      http.get (.ok (Response.mk 200 "OK" "https://example.com/api/profiles"
        (some "application/json") "\x7b\"success\":true,\"data\":\x7b\"id\":\"1\"\x7d\x7d")) ∧
    (∀ requestData options,
      http.post requestData options (.ok (Response.mk 200 "OK"
          "https://example.com/api/profiles" (some "application/json")
          "\x7b\"success\":true,\"data\":\x7b\"id\":\"1\"\x7d\x7d")) =
        http.get (.ok (Response.mk 200 "OK" "https://example.com/api/profiles"
          (some "application/json") "\x7b\"success\":true,\"data\":\x7b\"id\":\"1\"\x7d\x7d")) ∧
      http.put requestData options (.ok (Response.mk 200 "OK"
          "https://example.com/api/profiles" (some "application/json")
          "\x7b\"success\":true,\"data\":\x7b\"id\":\"1\"\x7d\x7d")) =
        http.get (.ok (Response.mk 200 "OK" "https://example.com/api/profiles"
          (some "application/json") "\x7b\"success\":true,\"data\":\x7b\"id\":\"1\"\x7d\x7d")) ∧
      http.patch requestData options (.ok (Response.mk 200 "OK"
          "https://example.com/api/profiles" (some "application/json")
          "\x7b\"success\":true,\"data\":\x7b\"id\":\"1\"\x7d\x7d")) =
        http.get (.ok (Response.mk 200 "OK" "https://example.com/api/profiles"
          (some "application/json") "\x7b\"success\":true,\"data\":\x7b\"id\":\"1\"\x7d\x7d")))) := by
  refine ⟨(fun e h => nomatch h), ?_⟩
  exact http_verbs_success_or_apiError
    (.ok (Response.mk 200 "OK" "https://example.com/api/profiles"
      (some "application/json") "\x7b\"success\":true,\"data\":\x7b\"id\":\"1\"\x7d\x7d"))
    (fun e h => nomatch h)
